import Mathlib

/-!
Verification of the Roo-Code governance core (Gate / Ledger / Lock Manager /
Orchestrator) against its natural-language specification.

The definitions below are a shallow embedding of the TypeScript source:

* the gatekeeper module state and `executePreHook` / `select_active_intent`
  (module `src/unnamed/part_002`);
* the `PreHook` class: `validate`, `classifyCommand`, `authorizeCommand`,
  `enforceScope`, `generateContentHash`, `postWriteFileHook`,
  `enforceConcurrencyControl` (module `src/unnamed/part_003`);
* the HookEngine orchestration wrapper (pseudocode in `src/unnamed/part_001`,
  spec section 4.6).

Machine integers are `Nat` with explicit `% 2 ^ 32` where 32-bit overflow
matters; fallible code returns `Except`; file-system reads are modelled by
passing the read content (or its absence) as an explicit argument; the
module-level mutable variable of the gatekeeper is modelled by explicit state
passing.
-/

/-- The error taxonomy of the governance core (spec section 7).  Each
constructor corresponds to one `throw new Error(...)` site in the source. -/
inductive GovError
  | missingIntent
  | undefinedScope
  | scopeViolation
  | unknownCommand
  | staleFile
deriving DecidableEq, Repr

/-! ## SHA-256

`PreHook.generateContentHash` is `crypto.createHash("sha256").update(content)
.digest("hex")`.  Below is an executable embedding of FIPS 180-4 SHA-256 over
byte lists (`Nat` values below 256), together with Node's UTF-8 encoding of
the input string and lowercase hex encoding of the digest.  All recursions are
structural (on an explicit fuel or on `Nat`) so every digest evaluates inside
the kernel. -/

namespace Sha256

/-- Truncate to 32 bits. -/
def mod32 (x : Nat) : Nat := x % 4294967296

/-- Right rotation of a 32-bit word. -/
def rotr32 (x n : Nat) : Nat := mod32 ((x >>> n) ||| (x <<< (32 - n)))

/-- Bitwise complement of a 32-bit word. -/
def not32 (x : Nat) : Nat := x ^^^ 4294967295

def bigSigma0 (x : Nat) : Nat := rotr32 x 2 ^^^ rotr32 x 13 ^^^ rotr32 x 22

def bigSigma1 (x : Nat) : Nat := rotr32 x 6 ^^^ rotr32 x 11 ^^^ rotr32 x 25

def smallSigma0 (x : Nat) : Nat := rotr32 x 7 ^^^ rotr32 x 18 ^^^ (x >>> 3)

def smallSigma1 (x : Nat) : Nat := rotr32 x 17 ^^^ rotr32 x 19 ^^^ (x >>> 10)

def ch (x y z : Nat) : Nat := (x &&& y) ^^^ (not32 x &&& z)

def maj (x y z : Nat) : Nat := (x &&& y) ^^^ (x &&& z) ^^^ (y &&& z)

/-- The 64 round constants of SHA-256 (FIPS 180-4 section 4.2.2), written in
decimal. -/
def K : List Nat :=
  [1116352408, 1899447441, 3049323471, 3921009573, 961987163, 1508970993,
   2453635748, 2870763221, 3624381080, 310598401, 607225278, 1426881987,
   1925078388, 2162078206, 2614888103, 3248222580, 3835390401, 4022224774,
   264347078, 604807628, 770255983, 1249150122, 1555081692, 1996064986,
   2554220882, 2821834349, 2952996808, 3210313671, 3336571891, 3584528711,
   113926993, 338241895, 666307205, 773529912, 1294757372, 1396182291,
   1695183700, 1986661051, 2177026350, 2456956037, 2730485921, 2820302411,
   3259730800, 3345764771, 3516065817, 3600352804, 4094571909, 275423344,
   430227734, 506948616, 659060556, 883997877, 958139571, 1322822218,
   1537002063, 1747873779, 1955562222, 2024104815, 2227730452, 2361852424,
   2428436474, 2756734187, 3204031479, 3329325298]

/-- The initial hash value (FIPS 180-4 section 5.3.3), written in decimal. -/
def H0 : List Nat :=
  [1779033703, 3144134277, 1013904242, 2773480762,
   1359893119, 2600822924, 528734635, 1541459225]

/-- SHA-256 padding: append `0x80`, zero bytes up to 56 mod 64, and the bit
length as 8 big-endian bytes. -/
def padMessage (msg : List Nat) : List Nat :=
  let L := msg.length
  let k := (120 - (L + 1) % 64) % 64
  msg ++ [0x80] ++ List.replicate k 0 ++
    (List.range 8).map (fun i => ((8 * L) >>> (56 - 8 * i)) % 256)

/-- Group bytes into big-endian 32-bit words. -/
def toWords : List Nat → List Nat
  | b0 :: b1 :: b2 :: b3 :: rest =>
      ((b0 <<< 24) ||| (b1 <<< 16) ||| (b2 <<< 8) ||| b3) :: toWords rest
  | _ => []

/-- Split into 64-byte blocks.  `fuel` bounds the recursion; it is always
called with the list length, which suffices because each step drops 64. -/
def chunks64 : Nat → List Nat → List (List Nat)
  | _, [] => []
  | 0, _ => []
  | fuel + 1, l => l.take 64 :: chunks64 fuel (l.drop 64)

/-- Extend the 16 message words to the 64-word schedule.  The accumulator
holds the words most recent first. -/
def extendSchedule : Nat → List Nat → List Nat
  | 0, acc => acc
  | n + 1, acc =>
      let w2 := acc.getD 1 0
      let w7 := acc.getD 6 0
      let w15 := acc.getD 14 0
      let w16 := acc.getD 15 0
      extendSchedule n (mod32 (smallSigma1 w2 + w7 + smallSigma0 w15 + w16) :: acc)

/-- The eight 32-bit working variables. -/
structure Regs where
  a : Nat
  b : Nat
  c : Nat
  d : Nat
  e : Nat
  f : Nat
  g : Nat
  h : Nat
deriving DecidableEq, Repr

/-- One compression round. -/
def round (r : Regs) (kw : Nat × Nat) : Regs :=
  let t1 := mod32 (r.h + bigSigma1 r.e + ch r.e r.f r.g + kw.1 + kw.2)
  let t2 := mod32 (bigSigma0 r.a + maj r.a r.b r.c)
  { a := mod32 (t1 + t2), b := r.a, c := r.b, d := r.c,
    e := mod32 (r.d + t1), f := r.e, g := r.f, h := r.g }

/-- Compress one 64-byte block into the running hash value. -/
def compressBlock (hv : List Nat) (block : List Nat) : List Nat :=
  let ws := (extendSchedule 48 (toWords block).reverse).reverse
  let r0 : Regs :=
    { a := hv.getD 0 0, b := hv.getD 1 0, c := hv.getD 2 0, d := hv.getD 3 0,
      e := hv.getD 4 0, f := hv.getD 5 0, g := hv.getD 6 0, h := hv.getD 7 0 }
  let r := (K.zip ws).foldl round r0
  [mod32 (hv.getD 0 0 + r.a), mod32 (hv.getD 1 0 + r.b), mod32 (hv.getD 2 0 + r.c),
   mod32 (hv.getD 3 0 + r.d), mod32 (hv.getD 4 0 + r.e), mod32 (hv.getD 5 0 + r.f),
   mod32 (hv.getD 6 0 + r.g), mod32 (hv.getD 7 0 + r.h)]

/-- SHA-256 of a byte list, as the eight 32-bit digest words. -/
def sha256Words (msg : List Nat) : List Nat :=
  let padded := padMessage msg
  (chunks64 padded.length padded).foldl compressBlock H0

/-- Lowercase hexadecimal digit. -/
def hexDigit (n : Nat) : Char := if n < 10 then Char.ofNat (48 + n) else Char.ofNat (87 + n)

/-- A 32-bit word as 8 lowercase hex digits. -/
def wordToHex (w : Nat) : List Char := (List.range 8).map (fun i => hexDigit ((w >>> (28 - 4 * i)) % 16))

/-- Node's UTF-8 encoding of one code point. -/
def utf8Bytes (c : Nat) : List Nat :=
  if c < 0x80 then [c]
  else if c < 0x800 then [0xc0 ||| (c >>> 6), 0x80 ||| (c &&& 63)]
  else if c < 0x10000 then
    [0xe0 ||| (c >>> 12), 0x80 ||| ((c >>> 6) &&& 63), 0x80 ||| (c &&& 63)]
  else
    [0xf0 ||| (c >>> 18), 0x80 ||| ((c >>> 12) &&& 63), 0x80 ||| ((c >>> 6) &&& 63),
     0x80 ||| (c &&& 63)]

/-- The UTF-8 bytes of a string, as `crypto.update` reads its input. -/
def stringBytes (s : String) : List Nat := (s.data.map (fun c => utf8Bytes c.toNat)).flatten

/-- SHA-256 of a string, hex-encoded, exactly as
`crypto.createHash("sha256").update(s).digest("hex")` computes it. -/
def hexDigest (s : String) : String :=
  String.mk ((sha256Words (stringBytes s)).map wordToHex).flatten

end Sha256

/-! ## The scope matcher

`PreHook.enforceScope` compiles every ownership glob with

  new RegExp("^" + pattern.replace(/\*\*/g, ".*").replace(/\*/g, "[^/]*") + "$")

and tests the file path against it.  The two global replacements are embedded
literally (the second one also rewrites the `*` of any `.*` produced by the
first), and the resulting regular expression — whose only constructs, for glob
patterns over letters, digits, `/`, `.`, `_`, `-` and `*`, are literal
characters, the `.` wildcard and the `[^/]*` star — is interpreted by a
backtracking matcher anchored at both ends, as `RegExp.test` is. -/

/-- Does the first list occur at the head of the second? -/
def startsWithList : List Char → List Char → Bool
  | [], _ => true
  | _ :: _, [] => false
  | a :: as, b :: bs => a == b && startsWithList as bs

/-- Leftmost, non-overlapping global replacement of a literal needle, as
`String.prototype.replace` with a `/g` regex of literal characters performs
it; replacement text is not rescanned.  `fuel` bounds the recursion and is
always called with the input length. -/
def replaceAllAux (needle repl : List Char) : Nat → List Char → List Char
  | _, [] => []
  | 0, l => l
  | fuel + 1, c :: rest =>
      if startsWithList needle (c :: rest) && !needle.isEmpty then
        repl ++ replaceAllAux needle repl fuel ((c :: rest).drop needle.length)
      else
        c :: replaceAllAux needle repl fuel rest

/-- Global replacement on strings. -/
def replaceAll (s needle repl : String) : String :=
  String.mk (replaceAllAux needle.data repl.data s.data.length s.data)

/-- One construct of the compiled scope regex: a literal character, the `.`
wildcard, or the `[^/]*` star. -/
inductive RTok
  | lit (c : Char)
  | anyChar
  | starNoSlash
deriving DecidableEq, Repr

/-- Read the replaced pattern text as regex constructs. -/
def parseTokens : List Char → List RTok
  | '[' :: '^' :: '/' :: ']' :: '*' :: rest => .starNoSlash :: parseTokens rest
  | '.' :: rest => .anyChar :: parseTokens rest
  | c :: rest => .lit c :: parseTokens rest
  | [] => []

/-- The JavaScript `.` wildcard: any character except a line terminator. -/
def jsDotMatches (c : Char) : Bool :=
  !(c == '\n' || c == '\r' || c.toNat == 8232 || c.toNat == 8233)

/-- Anchored backtracking match of the compiled regex against the path
characters.  `fuel` bounds the recursion; each call shrinks the token list or
the character list, so `tokens + characters + 1` suffices. -/
def matchTokensAux : Nat → List RTok → List Char → Bool
  | 0, _, _ => false
  | _ + 1, [], [] => true
  | _ + 1, [], _ :: _ => false
  | _ + 1, .lit _ :: _, [] => false
  | fuel + 1, .lit c :: ts, x :: xs => c == x && matchTokensAux fuel ts xs
  | _ + 1, .anyChar :: _, [] => false
  | fuel + 1, .anyChar :: ts, x :: xs => jsDotMatches x && matchTokensAux fuel ts xs
  | fuel + 1, .starNoSlash :: ts, xs =>
      matchTokensAux fuel ts xs ||
      (match xs with
       | [] => false
       | x :: xs2 => x != '/' && matchTokensAux fuel (.starNoSlash :: ts) xs2)

/-- Anchored test of a compiled scope regex against a path, as
`RegExp.test` evaluates `^...$`. -/
def regexTest (ts : List RTok) (s : String) : Bool :=
  matchTokensAux (ts.length + s.data.length + 1) ts s.data

/-- Compile one ownership glob exactly as `enforceScope` does:
first replace every `**` with `.*`, then every remaining `*` (including the
one inside each inserted `.*`) with `[^/]*`. -/
def compilePattern (pattern : String) : List RTok :=
  parseTokens (replaceAll (replaceAll pattern "**" ".*") "*" "[^/]*").data

/-! ## The Intent data model and the Gate -/

/-- Modelled from the spec: the `Intent` record of spec section 3; the
`models/Intent` module itself is not among the sources, so the optional fields
mirror the TypeScript object literals that `PreHook` actually constructs — the
permissive stub sets only `id` and `owned_scope`, while a block extracted from
the registry always carries `constraints` and `acceptance_criteria` arrays. -/
structure Intent where
  id : String
  name : Option String
  owned_scope : Option (List String)
  constraints : Option (List String)
  acceptance_criteria : Option (List String)
deriving DecidableEq, Repr

/-- One entry of the `.orchestration/active_intents.yaml` registry source,
with the fields `PreHook.extractIntentBlock` scrapes out of it. -/
structure RawIntentEntry where
  id : String
  name : Option String
  owned_scope : List String
  constraints : List String
  acceptance_criteria : List String
deriving DecidableEq, Repr

/-- JavaScript whitespace test used by `String.prototype.trim`. -/
def isJsWhitespace (c : Char) : Bool :=
  c == ' ' || c == '\t' || c == '\n' || c == '\r' ||
  c.toNat == 11 || c.toNat == 12 || c.toNat == 160 || c.toNat == 65279

/-- JavaScript `String.prototype.trim`. -/
def jsTrim (s : String) : String :=
  String.mk (((s.data.dropWhile isJsWhitespace).reverse.dropWhile isJsWhitespace).reverse)

namespace PreHook

/-- The degraded permissive record `{ id, owned_scope: ["**"] }` that
`PreHook.validate` returns when the registry sidecar is unreadable or does not
contain the requested id. -/
def permissiveStub (id : String) : Intent :=
  { id := id, name := none, owned_scope := some ["**"], constraints := none,
    acceptance_criteria := none }

/-- Embeds `PreHook.extractIntentBlock`: find the first registry entry whose
id matches and return its fields as an `Intent`.  The regex-driven YAML block
scanning of the source is modelled over the already-split entry list; as in
the source, a found block always carries `name`, `owned_scope`, `constraints`
and `acceptance_criteria`. -/
def extractIntentBlock (entries : List RawIntentEntry) (id : String) : Option Intent :=
  match entries.find? (fun e => e.id == id) with
  | none => none
  | some e =>
      some { id := id, name := e.name, owned_scope := some e.owned_scope,
             constraints := some e.constraints, acceptance_criteria := some e.acceptance_criteria }

/-- Embeds `PreHook.validate`: an absent or whitespace-only id is a
`missingIntent` failure; otherwise the id is resolved against the registry
source (`registry = none` models an unreadable sidecar file), falling back to
the permissive stub when the id is not found. -/
def validate (activeIntentId : String) (registry : Option (List RawIntentEntry)) :
    Except GovError Intent :=
  if (jsTrim activeIntentId).length = 0 then .error .missingIntent
  else
    match registry with
    | none => .ok (permissiveStub activeIntentId)
    | some entries =>
        match extractIntentBlock entries activeIntentId with
        | none => .ok (permissiveStub activeIntentId)
        | some block => .ok block

/-- Command classification result. -/
inductive CommandClass
  | Safe
  | Destructive
deriving DecidableEq, Repr

/-- The closed table of safe commands. -/
def safeCommands : List String := ["read_file", "list_files"]

/-- The closed table of destructive commands. -/
def destructiveCommands : List String := ["write_file", "delete_file", "execute_command"]

/-- Embeds `PreHook.classifyCommand`: membership in the two closed tables; an
unlisted name throws `Unknown command`. -/
def classifyCommand (command : String) : Except GovError CommandClass :=
  if command ∈ safeCommands then .ok .Safe
  else if command ∈ destructiveCommands then .ok .Destructive
  else .error .unknownCommand

/-- Embeds `PreHook.authorizeCommand`: destructive commands consult the modal
approval decision (`userResponse` models the button returned by
`vscode.window.showWarningMessage`, `none` a dismissed dialog) and are granted
exactly on `Approve`; safe commands return `true` without opening the dialog,
so the decision argument is never consulted for them. -/
def authorizeCommand (command : String) (userResponse : Option String) :
    Except GovError Bool :=
  match classifyCommand command with
  | .error e => .error e
  | .ok .Destructive => .ok (userResponse == some "Approve")
  | .ok .Safe => .ok true

/-- Embeds `PreHook.enforceScope`: an intent without a defined `owned_scope`
is rejected outright; otherwise the path must pass the compiled regex of at
least one ownership glob, else `Scope Violation`. -/
def enforceScope (filePath : String) (intent : Intent) : Except GovError Unit :=
  match intent.owned_scope with
  | none => .error .undefinedScope
  | some patterns =>
      if patterns.any (fun p => regexTest (compilePattern p) filePath) then .ok ()
      else .error .scopeViolation

/-- Embeds `PreHook.generateContentHash`: the hex SHA-256 of the raw content
bytes — the source applies no normalization before hashing. -/
def generateContentHash (content : String) : String :=
  Sha256.hexDigest content

/-- Embeds `PreHook.enforceConcurrencyControl`: recompute the hash of the
file's current on-disk content (passed here as `currentContent`, modelling the
`fs.readFileSync` call) and fail with the stale-file error exactly when it
differs from the snapshot hash. -/
def enforceConcurrencyControl (currentContent : String) (initialHash : String) :
    Except GovError Unit :=
  if generateContentHash currentContent ≠ initialHash then .error .staleFile
  else .ok ()

end PreHook

/-! ## The gatekeeper module

`src/unnamed/part_002` keeps one module-level mutable binding
`let activeIntentId: string | null = null`, read by every gate evaluation and
written by `select_active_intent`.  The binding is modelled as an explicit
`GatekeeperState`; note that the state carries no session identifier, exactly
because the source has a single module-scoped variable shared by every
session in the process. -/

/-- The gatekeeper module state: the one `activeIntentId` binding. -/
structure GatekeeperState where
  activeIntentId : Option String
deriving DecidableEq, Repr

/-- Embeds `getActiveIntentId`. -/
def getActiveIntentId (st : GatekeeperState) : Option String :=
  st.activeIntentId

/-- Embeds `executePreHook`: for the tool names `write_to_file` and
`execute_command`, a falsy `activeIntentId` (`null` or the empty string) is a
governance violation — the missing-intent error; every other tool name passes
unconditionally. -/
def executePreHook (toolName : String) (activeIntentId : Option String) :
    Except GovError Unit :=
  if toolName = "write_to_file" ∨ toolName = "execute_command" then
    if activeIntentId.getD "" = "" then .error .missingIntent else .ok ()
  else .ok ()

/-- Embeds `select_active_intent`: overwrite the module-level binding and
return the intent-context marker. -/
def select_active_intent (_st : GatekeeperState) (intent_id : String) :
    GatekeeperState × String :=
  ({ activeIntentId := some intent_id },
   "<intent_context id=\"" ++ intent_id ++ "\" />")

/-! ## The Ledger and the Orchestrator -/

/-- The inputs `PreHook.postWriteFileHook` receives (its `WriteFileSchema`). -/
structure WriteFileSchema where
  filePath : String
  content : String
  intent_id : String
  mutation_class : String
deriving DecidableEq, Repr

/-- One appended line of `.orchestration/agent_trace.jsonl`, with the nested
`files/conversations/ranges` arrays of the single record the source builds
flattened into their scalar fields. -/
structure TraceEntry where
  id : String
  timestamp : String
  revision_id : String
  relative_path : String
  entity_type : String
  model_identifier : String
  content_hash : String
  intent_id : String
deriving DecidableEq, Repr

/-- The trace entry `PreHook.postWriteFileHook` constructs: a fresh uuid and
timestamp (passed explicitly here, modelling `crypto.randomUUID()` and
`new Date()`), the placeholder revision, the target path, the fixed
contributor descriptor, the SHA-256 content hash and the related intent id. -/
def mkTraceEntry (uuid timestamp : String) (w : WriteFileSchema) : TraceEntry :=
  { id := uuid, timestamp := timestamp, revision_id := "git_sha_placeholder",
    relative_path := w.filePath, entity_type := "AI",
    model_identifier := "claude-3-5-sonnet",
    content_hash := PreHook.generateContentHash w.content,
    intent_id := w.intent_id }

/-- Embeds `PreHook.postWriteFileHook`: append exactly one serialized trace
entry to the ledger (`fs.appendFileSync` of one JSON line). -/
def postWriteFileHook (uuid timestamp : String) (w : WriteFileSchema)
    (ledger : List TraceEntry) : List TraceEntry :=
  ledger ++ [mkTraceEntry uuid timestamp w]

/-- The per-session governance state the Orchestrator threads: the active
intent binding and the ledger file content. -/
structure GovState where
  activeIntentId : Option String
  ledger : List TraceEntry
deriving DecidableEq, Repr

/-- One governed mutation request: the tool being invoked, its write payload,
whether the wrapped action itself succeeds, and the fresh uuid and timestamp
the logger would draw. -/
structure Request where
  toolName : String
  schema : WriteFileSchema
  actionSucceeds : Bool
  uuid : String
  timestamp : String
deriving DecidableEq, Repr

/-- Terminal states of one Orchestrator invocation (spec section 4.6):
`done`, `blocked e` (a gate step failed), or `failed` (the wrapped action
itself failed). -/
inductive HookOutcome
  | done
  | blocked (e : GovError)
  | failed
deriving DecidableEq, Repr

/-- The gate chain run before the wrapped action: the gatekeeper's
`executePreHook` on the module binding, then `PreHook.validate` on the cited
id, then `PreHook.enforceScope` of the target path against the resolved
intent.  The first failure aborts the chain. -/
def runGate (activeIntentId : Option String) (toolName filePath : String)
    (registry : Option (List RawIntentEntry)) : Except GovError Intent :=
  match executePreHook toolName activeIntentId with
  | .error e => .error e
  | .ok _ =>
      match PreHook.validate (activeIntentId.getD "") registry with
      | .error e => .error e
      | .ok intent =>
          match PreHook.enforceScope filePath intent with
          | .error e => .error e
          | .ok _ => .ok intent

/-- Modelled from the spec: `HookEngine.executeWithHooks`, the Orchestrator
entry point, exists in the repository only as the pseudocode of
`src/unnamed/part_001` and spec section 4.6; its gate, logger and ledger
append are the embedded source functions.  A gate failure yields `blocked`
with the wrapped action never invoked and the state untouched; an action
failure yields `failed` with no trace entry; a successful action appends
exactly one trace entry through `postWriteFileHook`.  The second component of
the result records whether the wrapped action was invoked. -/
def executeWithHooks (registry : Option (List RawIntentEntry)) (st : GovState)
    (r : Request) : (HookOutcome × Bool) × GovState :=
  match runGate st.activeIntentId r.toolName r.schema.filePath registry with
  | .error e => ((.blocked e, false), st)
  | .ok _ =>
      if r.actionSucceeds then
        ((.done, true),
         { st with ledger := postWriteFileHook r.uuid r.timestamp r.schema st.ledger })
      else
        ((.failed, true), st)

/-- Run a sequence of governed requests through the Orchestrator. -/
def runRequests (registry : Option (List RawIntentEntry)) (st : GovState) :
    List Request → GovState
  | [] => st
  | r :: rs => runRequests registry (executeWithHooks registry st r).2 rs

/-- A request that passes every gate step and whose wrapped action succeeds —
exactly the invocations that mutate the workspace. -/
def isSuccessfulMutation (registry : Option (List RawIntentEntry))
    (activeIntentId : Option String) (r : Request) : Bool :=
  (match runGate activeIntentId r.toolName r.schema.filePath registry with
   | .ok _ => true
   | .error _ => false) && r.actionSucceeds

/-- Equality of typed results is decidable, so every gate verdict can be
checked by evaluation. -/
instance exceptDecEq {ε α : Type} [DecidableEq ε] [DecidableEq α] :
    DecidableEq (Except ε α) := fun x y =>
  match x, y with
  | .error a, .error b =>
      if h : a = b then isTrue (by rw [h])
      else isFalse (fun hc => h (by injection hc))
  | .ok a, .ok b =>
      if h : a = b then isTrue (by rw [h])
      else isFalse (fun hc => h (by injection hc))
  | .error _, .ok _ => isFalse (fun hc => Except.noConfusion hc)
  | .ok _, .error _ => isFalse (fun hc => Except.noConfusion hc)

/-! ## The claims -/

/-- C10: the pre-hook gate checks for an active intent only when the tool
name is exactly `write_to_file` or `execute_command`; for every other tool
name — including other workspace-mutating tools such as delete or diff-apply
tools — `executePreHook` returns without error even when no active intent is
selected. -/
theorem claim_C10_gate_covers_only_two_tools (toolName : String)
    (activeIntentId : Option String)
    (h1 : toolName ≠ "write_to_file") (h2 : toolName ≠ "execute_command") :
    executePreHook toolName activeIntentId = .ok () := by
  simp [executePreHook, h1, h2]

/-- C10 witness: a diff-apply tool invocation passes the pre-hook with no
active intent selected. -/
theorem claim_C10_witness :
    executePreHook "apply_diff" none = .ok () :=
  claim_C10_gate_covers_only_two_tools "apply_diff" none (by decide) (by decide)

/-- C8 counterexample: the claim that selecting an active intent in one
session leaves the id observed by another session's gate evaluations
unchanged is false — the source keeps a single module-level `activeIntentId`,
so after any session runs `select_active_intent "INT-001"` on the fresh
module state, every session's `getActiveIntentId` reads `INT-001` instead of
the previous `null`. -/
theorem claim_C8_counterexample :
    ¬ (getActiveIntentId (select_active_intent { activeIntentId := none } "INT-001").1
        = getActiveIntentId { activeIntentId := none }) := by
  decide

/-- C8 (amended): `ActiveIntentState` is a single process-wide module
variable, not per-session state — `select_active_intent` issued by any
session overwrites the one binding, and every session's gate evaluation then
observes the newly selected id. -/
theorem claim_C8_singleton_interference (st : GatekeeperState) (intent_id : String) :
    getActiveIntentId (select_active_intent st intent_id).1 = some intent_id :=
  rfl

/-- C7: command classification is a closed, explicit table —
`classifyCommand "read_file"` is `Safe`, `classifyCommand "delete_file"` is
`Destructive`, and every command name listed in neither table fails with the
unknown-command error rather than being inferred. -/
theorem claim_C7_classification_table :
    PreHook.classifyCommand "read_file" = .ok .Safe ∧
    PreHook.classifyCommand "delete_file" = .ok .Destructive ∧
    ∀ command : String, command ∉ PreHook.safeCommands →
      command ∉ PreHook.destructiveCommands →
      PreHook.classifyCommand command = .error .unknownCommand := by
  refine ⟨by decide, by decide, ?_⟩
  intro command h1 h2
  simp [PreHook.classifyCommand, h1, h2]

/-- C7 witness: the unlisted command name `frobnicate` is rejected as
unknown. -/
theorem claim_C7_witness :
    PreHook.classifyCommand "frobnicate" = .error .unknownCommand :=
  claim_C7_classification_table.2.2 "frobnicate" (by decide) (by decide)

/-- C9: a command classified `Safe` is auto-granted — `authorizeCommand`
returns `true` whatever the approval decision is, so no prompt is consulted —
while a command classified `Destructive` consults the external approval
decision and is granted exactly when it is `Approve`; in particular a
`Reject` decision is denied. -/
theorem claim_C9_authorization (command : String) :
    (PreHook.classifyCommand command = .ok .Safe →
      ∀ decision : Option String,
        PreHook.authorizeCommand command decision = .ok true) ∧
    (PreHook.classifyCommand command = .ok .Destructive →
      PreHook.authorizeCommand command (some "Approve") = .ok true ∧
      PreHook.authorizeCommand command (some "Reject") = .ok false ∧
      ∀ decision : Option String,
        (PreHook.authorizeCommand command decision = .ok true ↔
          decision = some "Approve")) := by
  constructor
  · intro hs decision
    simp [PreHook.authorizeCommand, hs]
  · intro hd
    refine ⟨?_, ?_, ?_⟩ <;> simp [PreHook.authorizeCommand, hd]

/-- C9 witness: the safe command `read_file` is granted with no decision
available, and the destructive command `delete_file` is denied on a `Reject`
decision. -/
theorem claim_C9_witness :
    PreHook.authorizeCommand "read_file" none = .ok true ∧
    PreHook.authorizeCommand "delete_file" (some "Reject") = .ok false :=
  ⟨(claim_C9_authorization "read_file").1 (by decide) none,
   ((claim_C9_authorization "delete_file").2 (by decide)).2.1⟩

/-- C3 (the code evaluated at the failing input): the spec's pattern
semantics — `**` matches zero or more path segments — fail on the code.  The
double replacement compiles `src/core/**` to the regex `^src/core/.[^/]*$`,
so the claim's own examples pass (`src/core/foo.txt` allowed,
`docs/readme.txt` a scope violation) but `src/core/a/b.txt`, which `**`
should cover, is rejected; and the registry fallback's supposedly
match-everything pattern `**` compiles to `^.[^/]*$`, which fails to match
`src/core/foo.txt`, so the permissive stub authorizes almost nothing. -/
theorem claim_C3_scope_matcher_divergence :
    PreHook.enforceScope "src/core/foo.txt"
      { id := "INT-001", name := none, owned_scope := some ["src/core/**"],
        constraints := none, acceptance_criteria := none } = .ok () ∧
    PreHook.enforceScope "docs/readme.txt"
      { id := "INT-001", name := none, owned_scope := some ["src/core/**"],
        constraints := none, acceptance_criteria := none } = .error .scopeViolation ∧
    PreHook.enforceScope "src/core/a/b.txt"
      { id := "INT-001", name := none, owned_scope := some ["src/core/**"],
        constraints := none, acceptance_criteria := none } = .error .scopeViolation ∧
    regexTest (compilePattern "**") "src/core/foo.txt" = false ∧
    PreHook.enforceScope "src/core/foo.txt" (PreHook.permissiveStub "INT-002")
      = .error .scopeViolation := by
  decide

set_option maxRecDepth 400000 in
/-- C5 (the code evaluated at the failing input): `generateContentHash`
hashes the raw content — the digests computed for `"a\n"` and `"a\r\n"` are
the plain SHA-256 digests of those byte strings, and they differ, so two
contents differing only by line-ending representation do not hash
identically; no normalization is applied. -/
theorem claim_C5_hash_not_reformat_stable :
    PreHook.generateContentHash "a\n"
      = "87428fc522803d31065e7bce3cf03fe475096631e5e07bbd7a0fde60c4cf25c7" ∧
    PreHook.generateContentHash "a\r\n"
      = "8e4621379786ef42a4fec155cd525c291dd7db3c1fde3478522f4f61c03fd1bd" ∧
    PreHook.generateContentHash "a\n" ≠ PreHook.generateContentHash "a\r\n" := by
  refine ⟨by decide, by decide, by decide⟩

/-- C1: a `write_to_file` or `execute_command` invocation issued while the
active intent binding is unresolved (null or empty) is blocked by the
pre-hook with the missing-intent error: the wrapped action is never invoked
and the governance state — the ledger in particular — is left untouched. -/
theorem claim_C1_missing_intent_blocks (registry : Option (List RawIntentEntry))
    (st : GovState) (r : Request)
    (htool : r.toolName = "write_to_file" ∨ r.toolName = "execute_command")
    (hnone : st.activeIntentId.getD "" = "") :
    (executeWithHooks registry st r).1 = (.blocked .missingIntent, false) ∧
    (executeWithHooks registry st r).2 = st ∧
    (executeWithHooks registry st r).2.ledger.length = st.ledger.length := by
  have hpre : executePreHook r.toolName st.activeIntentId = .error .missingIntent := by
    unfold executePreHook
    rw [if_pos htool, if_pos hnone]
  have hgate : runGate st.activeIntentId r.toolName r.schema.filePath registry
      = .error .missingIntent := by
    unfold runGate
    rw [hpre]
  unfold executeWithHooks
  rw [hgate]
  exact ⟨rfl, rfl, rfl⟩

/-- C1 witness: `executeWithHooks` with no prior intent selection blocks a
`write_to_file` request with the missing-intent error and appends nothing to
the empty ledger. -/
theorem claim_C1_witness :
    (executeWithHooks none { activeIntentId := none, ledger := [] }
        { toolName := "write_to_file",
          schema := { filePath := "src/a.ts", content := "x", intent_id := "INT-001",
                      mutation_class := "AST_REFACTOR" },
          actionSucceeds := true, uuid := "uuid-1", timestamp := "t1" }).1
      = (.blocked .missingIntent, false) ∧
    (executeWithHooks none { activeIntentId := none, ledger := [] }
        { toolName := "write_to_file",
          schema := { filePath := "src/a.ts", content := "x", intent_id := "INT-001",
                      mutation_class := "AST_REFACTOR" },
          actionSucceeds := true, uuid := "uuid-1", timestamp := "t1" }).2.ledger.length
      = 0 := by
  have h := claim_C1_missing_intent_blocks none
    { activeIntentId := none, ledger := [] }
    { toolName := "write_to_file",
      schema := { filePath := "src/a.ts", content := "x", intent_id := "INT-001",
                  mutation_class := "AST_REFACTOR" },
      actionSucceeds := true, uuid := "uuid-1", timestamp := "t1" }
    (Or.inl rfl) rfl
  exact ⟨h.1, h.2.2⟩

/-- One Orchestrator invocation keeps the active intent binding and either
appends the single trace entry of a successful mutation or leaves the ledger
unchanged. -/
theorem executeWithHooks_state_eq (registry : Option (List RawIntentEntry))
    (st : GovState) (r : Request) :
    (executeWithHooks registry st r).2.activeIntentId = st.activeIntentId ∧
    (executeWithHooks registry st r).2.ledger
      = st.ledger ++
          (if isSuccessfulMutation registry st.activeIntentId r
            then [mkTraceEntry r.uuid r.timestamp r.schema] else []) := by
  unfold executeWithHooks isSuccessfulMutation
  cases hg : runGate st.activeIntentId r.toolName r.schema.filePath registry with
  | error e => simp
  | ok intent =>
      cases hr : r.actionSucceeds with
      | false => simp [hr]
      | true => simp [hr, postWriteFileHook]

/-- Running a request sequence preserves the active intent binding and
appends exactly the trace entries of the successful mutations, in completion
order, after the prior ledger content. -/
theorem runRequests_ledger (registry : Option (List RawIntentEntry)) :
    ∀ (rs : List Request) (st : GovState),
      (runRequests registry st rs).activeIntentId = st.activeIntentId ∧
      (runRequests registry st rs).ledger
        = st.ledger ++
            (rs.filter (isSuccessfulMutation registry st.activeIntentId)).map
              (fun r => mkTraceEntry r.uuid r.timestamp r.schema)
  | [], st => by simp [runRequests]
  | r :: rs, st => by
      have hstep := executeWithHooks_state_eq registry st r
      have ih := runRequests_ledger registry rs (executeWithHooks registry st r).2
      rw [hstep.1] at ih
      constructor
      · simp only [runRequests]
        rw [ih.1]
      · simp only [runRequests]
        rw [ih.2, hstep.2]
        cases hp : isSuccessfulMutation registry st.activeIntentId r with
        | false => simp [List.filter_cons, hp]
        | true => simp [List.filter_cons, hp]

/-- C2: over any sequence of governed requests, each successful mutation
appends exactly one trace entry and a blocked or failed request appends none,
so the final ledger is the prior ledger followed by exactly the entries of
the successful mutations in completion order; the entry count grows by
exactly the number of successful mutations (with a prior empty ledger, after
N successful mutations exactly N entries), never decreases, and the prior
entries are preserved unaltered as the initial segment. -/
theorem claim_C2_ledger_append_only (registry : Option (List RawIntentEntry))
    (st : GovState) (rs : List Request) :
    (runRequests registry st rs).ledger
      = st.ledger ++
          (rs.filter (isSuccessfulMutation registry st.activeIntentId)).map
            (fun r => mkTraceEntry r.uuid r.timestamp r.schema) ∧
    (runRequests registry st rs).ledger.length
      = st.ledger.length
        + (rs.filter (isSuccessfulMutation registry st.activeIntentId)).length ∧
    st.ledger.length ≤ (runRequests registry st rs).ledger.length ∧
    (runRequests registry st rs).ledger.take st.ledger.length = st.ledger := by
  obtain ⟨-, hled⟩ := runRequests_ledger registry rs st
  refine ⟨hled, ?_, ?_, ?_⟩
  · rw [hled]
    simp
  · rw [hled]
    simp
  · rw [hled]
    exact List.take_left _ _

/-- C4: intent resolution fails with the missing-intent error exactly when
the cited id is absent or empty after trimming; a non-empty id that the
registry source does not contain (or an unreadable registry) resolves to the
degraded permissive record with `owned_scope = ["**"]` instead of failing,
and that degraded record differs from every fully-resolved intent the
registry can produce — a resolved block always carries its `constraints`
array, the stub never does — so callers and tests can assert on it. -/
theorem claim_C4_intent_resolution (id : String)
    (registry : Option (List RawIntentEntry)) :
    ((jsTrim id).length = 0 →
      PreHook.validate id registry = .error .missingIntent) ∧
    ((jsTrim id).length ≠ 0 →
      (registry = none →
        PreHook.validate id registry = .ok (PreHook.permissiveStub id)) ∧
      (∀ entries, registry = some entries →
        PreHook.extractIntentBlock entries id = none →
        PreHook.validate id registry = .ok (PreHook.permissiveStub id)) ∧
      (PreHook.permissiveStub id).owned_scope = some ["**"] ∧
      (∀ entries block, PreHook.extractIntentBlock entries id = some block →
        PreHook.validate id (some entries) = .ok block ∧
        block ≠ PreHook.permissiveStub id)) := by
  constructor
  · intro h0
    simp [PreHook.validate, h0]
  · intro hne
    refine ⟨?_, ?_, rfl, ?_⟩
    · intro hreg
      subst hreg
      simp [PreHook.validate, hne]
    · intro entries hreg hblk
      subst hreg
      simp [PreHook.validate, hne, hblk]
    · intro entries block hblk
      constructor
      · simp [PreHook.validate, hne, hblk]
      · intro hcontra
        have hc : block.constraints = none := by rw [hcontra]; rfl
        unfold PreHook.extractIntentBlock at hblk
        cases hfind : entries.find? (fun e => e.id == id) with
        | none =>
            rw [hfind] at hblk
            exact Option.noConfusion hblk
        | some e =>
            rw [hfind] at hblk
            have hb := Option.some.inj hblk
            rw [← hb] at hc
            exact Option.noConfusion hc

/-- C4 witness: the empty id is a missing-intent failure; the unknown id
`INT-404` against an unreadable registry resolves to the permissive stub; a
registered id resolves to its full record, which differs from the stub. -/
theorem claim_C4_witness :
    PreHook.validate "" none = .error .missingIntent ∧
    PreHook.validate "INT-404" none = .ok (PreHook.permissiveStub "INT-404") ∧
    PreHook.validate "INT-001"
        (some [{ id := "INT-001", name := some "Core refactor",
                 owned_scope := ["src/core/**"], constraints := ["c1"],
                 acceptance_criteria := ["a1"] }])
      = .ok { id := "INT-001", name := some "Core refactor",
              owned_scope := some ["src/core/**"], constraints := some ["c1"],
              acceptance_criteria := some ["a1"] } ∧
    ({ id := "INT-001", name := some "Core refactor",
       owned_scope := some ["src/core/**"], constraints := some ["c1"],
       acceptance_criteria := some ["a1"] } : Intent)
      ≠ PreHook.permissiveStub "INT-001" := by
  have h1 := (claim_C4_intent_resolution "" none).1 (by decide)
  have h2 := ((claim_C4_intent_resolution "INT-404" none).2 (by decide)).1 rfl
  have h3 := ((claim_C4_intent_resolution "INT-001"
      (some [{ id := "INT-001", name := some "Core refactor",
               owned_scope := ["src/core/**"], constraints := ["c1"],
               acceptance_criteria := ["a1"] }])).2 (by decide)).2.2.2
      [{ id := "INT-001", name := some "Core refactor",
         owned_scope := ["src/core/**"], constraints := ["c1"],
         acceptance_criteria := ["a1"] }]
      { id := "INT-001", name := some "Core refactor",
        owned_scope := some ["src/core/**"], constraints := some ["c1"],
        acceptance_criteria := some ["a1"] } (by decide)
  exact ⟨h1, h2, h3.1, h3.2⟩

/-- C6: the staleness check recomputes the content hash of the file's
current on-disk content and fails with the stale-file error exactly when that
hash differs from the expected snapshot hash; consequently a commit holding a
snapshot invalidated by an intervening write (the stored content now hashes
differently) fails, and a commit holding a freshly re-acquired snapshot whose
hash equals the current content succeeds. -/
theorem claim_C6_stale_commit (currentContent expectedHash original modified : String)
    (hdiff : PreHook.generateContentHash original
      ≠ PreHook.generateContentHash modified) :
    (PreHook.enforceConcurrencyControl currentContent expectedHash
        = .error .staleFile
      ↔ PreHook.generateContentHash currentContent ≠ expectedHash) ∧
    (PreHook.enforceConcurrencyControl currentContent expectedHash = .ok ()
      ↔ PreHook.generateContentHash currentContent = expectedHash) ∧
    PreHook.enforceConcurrencyControl modified
        (PreHook.generateContentHash original) = .error .staleFile ∧
    PreHook.enforceConcurrencyControl modified
        (PreHook.generateContentHash modified) = .ok () := by
  refine ⟨?_, ?_, ?_, ?_⟩
  · by_cases h : PreHook.generateContentHash currentContent = expectedHash <;>
      simp [PreHook.enforceConcurrencyControl, h]
  · by_cases h : PreHook.generateContentHash currentContent = expectedHash <;>
      simp [PreHook.enforceConcurrencyControl, h]
  · simp [PreHook.enforceConcurrencyControl, Ne.symm hdiff]
  · simp [PreHook.enforceConcurrencyControl]

set_option maxRecDepth 400000 in
/-- C6 witness: reader B snapshots `old` (hash H); an intervening write
leaves `new` on disk (hash H', different from H, both digests computed by the
embedded SHA-256); B's commit using H fails stale, and a commit with the
re-acquired snapshot H' succeeds. -/
theorem claim_C6_witness :
    PreHook.generateContentHash "old\n" ≠ PreHook.generateContentHash "new\n" ∧
    PreHook.enforceConcurrencyControl "new\n"
        (PreHook.generateContentHash "old\n") = .error .staleFile ∧
    PreHook.enforceConcurrencyControl "new\n"
        (PreHook.generateContentHash "new\n") = .ok () := by
  have hdiff : PreHook.generateContentHash "old\n"
      ≠ PreHook.generateContentHash "new\n" := by decide
  exact ⟨hdiff, (claim_C6_stale_commit "x" "y" "old\n" "new\n" hdiff).2.2.1,
         (claim_C6_stale_commit "x" "y" "old\n" "new\n" hdiff).2.2.2⟩
